import Mathlib

/-!
Shallow embedding of the `kutana` Telegram backend
(`src/kutana/backend.py`, `src/kutana/backends/telegram.py`).

Network effects are made explicit as event traces; the outcome of the
provider's HTTP response is an explicit parameter of the functions that
perform requests.  Python dictionaries whose shapes are fixed by the code
are embedded as structures; Python `None` becomes `Option`.
-/

namespace Kutana

/-- Receiver kind of a canonical message.  Modelled from the spec:
`ReceiverType` is a closed enumeration, SOLO for one-to-one chats and
MULTI for group/channel chats (the module `kutana/update.py` that declares
it is not part of the provided sources). -/
inductive ReceiverType where
  | SOLO
  | MULTI
deriving Repr, DecidableEq

/-- Update kind.  Modelled from the spec: a closed enumeration
distinguishing a generic update (`UPD`) from a textual message (`MSG`)
(declared in the missing `kutana/update.py`). -/
inductive UpdateType where
  | UPD
  | MSG
deriving Repr, DecidableEq

/-- Canonical attachment.  Modelled from the spec: a dual-mode value -
either *existing* (already known to the provider: has an id, a type tag, a
title, a display file name and a deferred content fetcher; `uploaded` is
true) or *new* (local content pending upload: `uploaded` is false and
`file` holds the content).  The declaring module `kutana/update.py` is not
part of the provided sources; the fields below are exactly those the
Telegram backend reads (`id`, `type`, `title`, `uploaded`, `file`) plus
the ones its `_existing_full` constructor fills (`file_name`, `getter`).
The deferred fetcher is represented by the file id it would download; the
opaque `raw` payload is not modelled. -/
structure Attachment where
  id : Option String
  type : String
  title : Option String
  file_name : Option String
  getter : Option String
  uploaded : Bool
  file : Option String
deriving Repr, DecidableEq

/-- Constructor used by normalization (`Attachment._existing_full` in the
missing `kutana/update.py`): an existing attachment, so `uploaded` is true
and there is no pending content. -/
def Attachment.existing_full (id : Option String) (type : String)
    (title : Option String) (file_name : Option String)
    (getter : Option String) : Attachment :=
  { id := id, type := type, title := title, file_name := file_name,
    getter := getter, uploaded := true, file := none }

/-- One element of a raw Telegram `photo` field: a size variant. -/
structure RawPhotoSize where
  width : Int
  file_id : String
deriving Repr, DecidableEq

/-- Raw Telegram `audio` payload (the keys `_make_attachment` reads). -/
structure RawAudio where
  file_id : Option String
  performer : Option String
  title : Option String
deriving Repr, DecidableEq

/-- Raw Telegram `document` payload (the keys `_make_attachment` reads). -/
structure RawDocument where
  file_id : Option String
  file_name : Option String
deriving Repr, DecidableEq

/-- Raw Telegram payload for `voice` / `video` / `sticker` (only
`file_id` is read by `_make_attachment`). -/
structure RawFileAttachment where
  file_id : Option String
deriving Repr, DecidableEq

/-- Raw Telegram message entity (the keys `_extract_text` reads). -/
structure RawEntity where
  type : String
  offset : Nat
  length : Nat
deriving Repr, DecidableEq

/-- Raw Telegram message (the keys `_make_update` / `_extract_text` read).
The attachment fields mirror dictionary-key presence: `none` / `false`
means the key is absent.  For the generic attachment kinds (`animation`,
`video_note`, `contact`, `location`, `venue`, `poll`, `invoice`) the code
only stores the payload opaquely, so mere presence is recorded. -/
structure RawMessage where
  chat_type : String
  chat_id : Int
  from_id : Int
  date : Int
  text : Option String := none
  entities : List RawEntity := []
  audio : Option RawAudio := none
  voice : Option RawFileAttachment := none
  photo : Option (List RawPhotoSize) := none
  video : Option RawFileAttachment := none
  document : Option RawDocument := none
  sticker : Option RawFileAttachment := none
  animation : Bool := false
  video_note : Bool := false
  contact : Bool := false
  location : Bool := false
  venue : Bool := false
  poll : Bool := false
  invoice : Bool := false
deriving Repr, DecidableEq

/-- Raw Telegram update: the `update_id` plus the optional `message`
payload (absence of the `"message"` key is `none`). -/
structure RawUpdate where
  update_id : Int
  message : Option RawMessage := none
deriving Repr, DecidableEq

/-- Normalized canonical event.  Modelled from the spec: `Update` is the
generic envelope and `Message` its specialization (both declared in the
missing `kutana/update.py`); the `msg` case carries exactly the fields the
backend's `Message(...)` construction fills.  The metadata mapping is an
association list (the code only ever stores the key `"bot_mentioned"`). -/
inductive NormalizedUpdate where
  | upd (raw : RawUpdate) (meta : List (String × Bool))
  | msg (raw : RawUpdate) (text : String) (attachments : List Attachment)
      (sender_id : Int) (receiver_id : Int) (receiver_type : ReceiverType)
      (date : Int) (meta : List (String × Bool))
deriving Repr, DecidableEq

/-- Python `str(x)` applied to an `Option String`: `None` prints as the
four-letter string, otherwise the string itself. -/
def pyStrOption : Option String → String
  | none => "None"
  | some s => s

/-- Python `text[a:b]` on unicode code points (entities use code-point
offsets; Lean `Char` is a code point). -/
def pySlice (text : String) (a b : Nat) : String :=
  String.mk ((text.toList.drop a).take (b - a))

/-- Python `text[a:]`. -/
def pySliceFrom (text : String) (a : Nat) : String :=
  String.mk (text.toList.drop a)

/-- Python `s.endswith(suffix)` on code points. -/
def pyEndsWith (s suffix : String) : Bool :=
  let sc := s.toList
  let tc := suffix.toList
  if tc.length ≤ sc.length then sc.drop (sc.length - tc.length) == tc else false

/-- Python `s[:-n]` for `n ≥ 1`: all but the last `n` code points. -/
def pyDropRight (s : String) (n : Nat) : String :=
  String.mk (s.toList.take (s.toList.length - n))

/-- Stable insertion of one entity into a list sorted by `offset`
(helper for the embedding of Python's stable `sorted(entities,
key=lambda entity: entity["offset"])`). -/
def insertByOffset (e : RawEntity) : List RawEntity → List RawEntity
  | [] => [e]
  | f :: fs => if e.offset < f.offset then e :: f :: fs else f :: insertByOffset e fs

/-- Stable sort of entities by `offset`, embedding Python's
`sorted(entities, key=lambda entity: entity["offset"])`. -/
def sortByOffset : List RawEntity → List RawEntity
  | [] => []
  | e :: es => insertByOffset e (sortByOffset es)

/-- Loop body state of `Telegram._extract_text`: accumulated
`final_text`, `last_index`, and whether `meta["bot_mentioned"]` was set. -/
structure ExtractState where
  final_text : String
  last_index : Nat
  bot_mentioned : Bool
deriving Repr, DecidableEq

/-- One iteration of the entity loop in `Telegram._extract_text`
(lines 173-185): only `bot_command` entities are consumed; a command
ending in `"@" + str(self.username)` has that suffix stripped and sets
the mention flag.  Note the Python f-string `f"@{self.username}"` renders
an unset username (`None`) as the literal text `@None`. -/
def extractStep (username : Option String) (text : String)
    (st : ExtractState) (entity : RawEntity) : ExtractState :=
  if entity.type = "bot_command" then
    let new_last_index := entity.offset + entity.length
    let command := pySlice text st.last_index new_last_index
    let mention := "@" ++ pyStrOption username
    if pyEndsWith command mention then
      { final_text := st.final_text ++ pyDropRight command mention.length,
        last_index := new_last_index, bot_mentioned := true }
    else
      { final_text := st.final_text ++ command,
        last_index := new_last_index, bot_mentioned := st.bot_mentioned }
  else
    st

/-- Embedding of `Telegram._extract_text` (telegram.py lines 161-187).
Returns the emitted text and the metadata mapping. -/
def extract_text (username : Option String) (m : RawMessage) :
    String × List (String × Bool) :=
  if m.entities = [] then
    (m.text.getD "", [])
  else
    let text := m.text.getD ""
    let final := (sortByOffset m.entities).foldl (extractStep username text)
      { final_text := "", last_index := 0, bot_mentioned := false }
    (final.final_text ++ pySliceFrom text final.last_index,
     if final.bot_mentioned then [("bot_mentioned", true)] else [])

/-- Stable insertion of one photo size into a list sorted by `width`
(helper for the embedding of Python's stable `sorted(d, key=lambda p:
p["width"])` in `_make_attachment`). -/
def insertByWidth (p : RawPhotoSize) : List RawPhotoSize → List RawPhotoSize
  | [] => [p]
  | q :: qs => if p.width < q.width then p :: q :: qs else q :: insertByWidth p qs

/-- Stable sort of photo size variants by `width`, embedding Python's
`sorted(d, key=lambda p: p["width"])`. -/
def sortByWidth : List RawPhotoSize → List RawPhotoSize
  | [] => []
  | p :: ps => insertByWidth p (sortByWidth ps)

/-- Embedding of the `photo` branch of `Telegram._make_attachment`
(telegram.py lines 98-104): the size variants are sorted by width and the
last one (`[-1]`) is taken.  Python raises `IndexError` on an empty
variant list, so the default is unreachable for inputs the code accepts. -/
def make_attachment_photo (sizes : List RawPhotoSize) : Attachment :=
  let photo := (sortByWidth sizes).getLastD { width := 0, file_id := "" }
  Attachment.existing_full (some photo.file_id) "image" (some "")
    (some photo.file_id) (some photo.file_id)

/-- Embedding of the `audio` branch of `Telegram._make_attachment`
(lines 106-111). -/
def make_attachment_audio (d : RawAudio) : Attachment :=
  let title := d.performer.getD "" ++ " - " ++ d.title.getD ""
  Attachment.existing_full d.file_id "audio" (some title) d.file_id d.file_id

/-- Embedding of the `document` branch of `Telegram._make_attachment`
(lines 113-118). -/
def make_attachment_document (d : RawDocument) : Attachment :=
  Attachment.existing_full d.file_id "doc" (some "")
    (some (d.file_name.getD "")) d.file_id

/-- Embedding of the `sticker` / `voice` / `video` branches of
`Telegram._make_attachment` (lines 120-136): passthrough of the file id,
with the id reused as the display file name and the declared type kept. -/
def make_attachment_file (type : String) (d : RawFileAttachment) : Attachment :=
  Attachment.existing_full d.file_id type (some "") d.file_id d.file_id

/-- Embedding of the fallback branch of `Telegram._make_attachment`
(lines 138-142): a generic attachment carrying only the raw payload. -/
def make_attachment_other (type : String) : Attachment :=
  Attachment.existing_full none type none none none

/-- Embedding of the attachment-collection loop of `Telegram._make_update`
(lines 193-205): the fixed ordered list of possible attachment keys is
scanned and, for each present key, `_make_attachment` is applied. -/
def collect_attachments (m : RawMessage) : List Attachment :=
  (m.audio.map make_attachment_audio).toList ++
  (m.voice.map (make_attachment_file "voice")).toList ++
  (m.photo.map make_attachment_photo).toList ++
  (m.video.map (make_attachment_file "video")).toList ++
  (m.document.map make_attachment_document).toList ++
  (m.sticker.map (make_attachment_file "sticker")).toList ++
  (if m.animation then [make_attachment_other "animation"] else []) ++
  (if m.video_note then [make_attachment_other "video_note"] else []) ++
  (if m.contact then [make_attachment_other "contact"] else []) ++
  (if m.location then [make_attachment_other "location"] else []) ++
  (if m.venue then [make_attachment_other "venue"] else []) ++
  (if m.poll then [make_attachment_other "poll"] else []) ++
  (if m.invoice then [make_attachment_other "invoice"] else [])

/-- Embedding of `Telegram._make_update` (telegram.py lines 189-225).
`username` is the backend's `self.username` field. -/
def make_update (username : Option String) (raw : RawUpdate) : NormalizedUpdate :=
  match raw.message with
  | none => NormalizedUpdate.upd raw []
  | some m =>
    let attachments := collect_attachments m
    if m.chat_type = "private" then
      NormalizedUpdate.msg raw (m.text.getD "") attachments m.from_id m.chat_id
        ReceiverType.SOLO m.date []
    else
      let tm := extract_text username m
      NormalizedUpdate.msg raw tm.1 attachments m.from_id m.chat_id
        ReceiverType.MULTI m.date tm.2

/-- Mutable fields of the `Telegram` backend that the embedded operations
read or write (telegram.py lines 41-54).  The pacing lock
`api_messages_lock` is `None` until `on_start` creates it; here a flag
records whether it exists. -/
structure Telegram where
  offset : Int
  username : Option String
  api_messages_pause : ℚ
  api_messages_lock : Bool
deriving Repr, DecidableEq

/-- Embedding of `Telegram.__init__` (lines 27-54) restricted to the
modelled fields: empty token is rejected with `ValueError`, the offset
starts at 0, the username and the pacing lock start unset, and the pause
is `1 / messages_per_second`. -/
def Telegram.init (token : String) (messages_per_second : ℚ) :
    Except String Telegram :=
  if token = "" then
    Except.error "No `token` specified"
  else
    Except.ok
      { offset := 0, username := none,
        api_messages_pause := 1 / messages_per_second,
        api_messages_lock := false }

/-- Result of the `getMe` call (the keys `on_start` reads). -/
structure GetMeResult where
  username : String
  first_name : Option String := none
  last_name : Option String := none
deriving Repr, DecidableEq

/-- Embedding of `Telegram.on_start` (lines 303-317) on the modelled
state: after the `getMe` request the username is stored and the pacing
lock is created. -/
def Telegram.on_start (st : Telegram) (me : GetMeResult) : Telegram :=
  { st with username := some me.username, api_messages_lock := true }

/-- Outcome of the `getUpdates` request issued by `acquire_updates`,
naming the exception classes of the `try` block (lines 228-241):
a successful response, `json.JSONDecodeError`, `aiohttp.ClientError`,
`asyncio.CancelledError`, or any other exception. -/
inductive PollOutcome where
  | ok (updates : List RawUpdate)
  | jsonDecodeError
  | clientError
  | cancelledError
  | otherError
deriving Repr, DecidableEq

/-- Observable events of one `acquire_updates` iteration: the
`getUpdates` request itself, each normalized update submitted to the
sink, the `logger.exception` call, and the cooldown `asyncio.sleep`. -/
inductive PollEvent where
  | getUpdates (timeout : Nat) (offset : Int)
  | submit (u : NormalizedUpdate)
  | logException
  | sleepSeconds (secs : Nat)
deriving Repr, DecidableEq

/-- Embedding of the delivery loop of `acquire_updates` (lines 243-245):
each raw update is normalized and submitted, then the cursor is set to
`update["update_id"] + 1`.  Returns the final cursor and, per item, the
submitted event paired with the cursor value in force right after that
item was delivered. -/
def pollLoop (username : Option String) :
    Int → List RawUpdate → Int × List (NormalizedUpdate × Int)
  | off, [] => (off, [])
  | _off, u :: us =>
    let after := u.update_id + 1
    let rest := pollLoop username after us
    (rest.1, (make_update username u, after) :: rest.2)

/-- Result of one `acquire_updates` iteration: the new backend state, the
events in order, and whether `asyncio.CancelledError` propagated. -/
structure PollResult where
  state : Telegram
  events : List PollEvent
  cancelled : Bool
deriving Repr, DecidableEq

/-- Embedding of `Telegram.acquire_updates` (telegram.py lines 227-245),
parameterized by the outcome of the `getUpdates` request.  Decode and
transport errors return silently; cancellation re-raises; any other
exception is logged and followed by `asyncio.sleep(1)`. -/
def acquire_updates (st : Telegram) (outcome : PollOutcome) : PollResult :=
  let req := PollEvent.getUpdates 25 st.offset
  match outcome with
  | PollOutcome.ok updates =>
    let r := pollLoop st.username st.offset updates
    { state := { st with offset := r.1 },
      events := req :: r.2.map (fun p => PollEvent.submit p.1),
      cancelled := false }
  | PollOutcome.jsonDecodeError =>
    { state := st, events := [req], cancelled := false }
  | PollOutcome.clientError =>
    { state := st, events := [req], cancelled := false }
  | PollOutcome.cancelledError =>
    { state := st, events := [req], cancelled := true }
  | PollOutcome.otherError =>
    { state := st, events := [req, PollEvent.logException, PollEvent.sleepSeconds 1],
      cancelled := false }

/-- Embedding of `SUPPORTED_ATTACHMENT_TYPES` (telegram.py lines 11-18). -/
def SUPPORTED_ATTACHMENT_TYPES : List String :=
  ["audio", "document", "photo", "sticker", "video", "voice"]

/-- Embedding of `ATTACHMENT_TYPE_ALIASES` (telegram.py lines 20-23). -/
def ATTACHMENT_TYPE_ALIASES : List (String × String) :=
  [("doc", "document"), ("image", "photo")]

/-- Python `ATTACHMENT_TYPE_ALIASES.get(t, t)` (lines 269-272). -/
def resolveAlias (t : String) : String :=
  ((ATTACHMENT_TYPE_ALIASES.lookup t).getD t)

/-- Python `str.capitalize`: first character uppercased, the rest
lowercased. -/
def pyCapitalize (s : String) : String :=
  match s.toList with
  | [] => ""
  | c :: cs => String.mk (c.toUpper :: cs.map Char.toLower)

/-- The outbound method name `f"send{attachment_type.capitalize()}"`
built from a declared attachment type after alias resolution
(telegram.py lines 269-274). -/
def sendMethodFor (declaredType : String) : String :=
  "send" ++ pyCapitalize (resolveAlias declaredType)

/-- Modelled from the spec: the `pick_by` helper (from the missing
`kutana/helpers.py`) filters out parameters whose value is absent before
transmission.  The same `None`-filter is applied by `_request` itself on
line 60, so every transmitted parameter list goes through this filter. -/
def pick_by (params : List (String × Option String)) : List (String × String) :=
  params.filterMap (fun p => p.2.map (fun v => (p.1, v)))

/-- Python dict merge `{**base, **extra}` for dictionaries with distinct
keys in `base`: overridden keys keep their position in `base` with the
value from `extra`; keys only in `extra` follow in `extra`'s order
(used for `{"chat_id": ..., "text": ..., **kwargs}` on lines 254-258). -/
def pyDictMerge (base extra : List (String × Option String)) :
    List (String × Option String) :=
  base.map (fun p => (p.1, (extra.lookup p.1).getD p.2)) ++
    extra.filter (fun q => base.all (fun p => p.1 ≠ q.1))

/-- One element of the `attachments` argument of `execute_send` after
normalization to a sequence: an `Attachment`, or a bare value (the code
only special-cases `int` and `str` scalars, and any non-`Attachment`
element is rejected inside the loop). -/
inductive SendItem where
  | att (a : Attachment)
  | intItem (i : Int)
  | strItem (s : String)
deriving Repr, DecidableEq

/-- The `attachments` argument of `execute_send`: a scalar (`int`, `str`
or `Attachment`) or a sequence. -/
inductive AttachmentsArg where
  | intScalar (i : Int)
  | strScalar (s : String)
  | attScalar (a : Attachment)
  | seq (items : List SendItem)
deriving Repr, DecidableEq

/-- Embedding of the scalar normalization on telegram.py lines 262-263:
`if isinstance(attachments, (int, str, Attachment)): attachments =
(attachments,)`. -/
def normalizeAttachments : AttachmentsArg → List SendItem
  | AttachmentsArg.intScalar i => [SendItem.intItem i]
  | AttachmentsArg.strScalar s => [SendItem.strItem s]
  | AttachmentsArg.attScalar a => [SendItem.att a]
  | AttachmentsArg.seq items => items

/-- Observable events of one `execute_send` invocation: the pacing-lock
acquisition and release, each outbound `_request` call with its
transmitted (`None`-filtered) parameters, and each pacing
`asyncio.sleep(self.api_messages_pause)`. -/
inductive SendEvent where
  | acquireLock
  | call (method : String) (params : List (String × String))
  | sleepPause (duration : ℚ)
  | releaseLock
deriving Repr, DecidableEq

/-- Failures of `execute_send`: entering the unset pacing lock
(`async with None` raises a `TypeError`), the `ValueError` for a
non-`Attachment` element (line 267), and the `ValueError` for uploading
an unsupported attachment type (line 288, the spec's
`UnsupportedAttachmentKind`). -/
inductive SendError where
  | lockNotInitialized
  | unexpectedAttachment
  | unsupportedAttachmentKind (t : String)
deriving Repr, DecidableEq

/-- Outcome of one `execute_send` invocation: the event trace that
occurred (also on failure, since `async with` releases the lock while the
exception propagates) and the error, if one was raised. -/
structure SendResult where
  trace : List SendEvent
  error : Option SendError
deriving Repr, DecidableEq

/-- Embedding of the per-attachment loop of `execute_send`
(telegram.py lines 265-296).  Returns the events of the processed prefix
and the error that stopped the loop, if any. -/
def sendLoop (chat_id : String) (pause : ℚ) :
    List SendItem → List SendEvent × Option SendError
  | [] => ([], none)
  | SendItem.intItem _ :: _ => ([], some SendError.unexpectedAttachment)
  | SendItem.strItem _ :: _ => ([], some SendError.unexpectedAttachment)
  | SendItem.att a :: rest =>
    let attachment_type := resolveAlias a.type
    let send_method := "send" ++ pyCapitalize attachment_type
    if a.uploaded then
      let ev := [SendEvent.call send_method (pick_by
          [("chat_id", some chat_id),
           (attachment_type, some (pyStrOption a.id)),
           ("caption", a.title)]),
        SendEvent.sleepPause pause]
      let r := sendLoop chat_id pause rest
      (ev ++ r.1, r.2)
    else if SUPPORTED_ATTACHMENT_TYPES.contains attachment_type then
      let ev := [SendEvent.call send_method (pick_by
          [("chat_id", some chat_id),
           (attachment_type, a.file),
           ("caption", a.title)]),
        SendEvent.sleepPause pause]
      let r := sendLoop chat_id pause rest
      (ev ++ r.1, r.2)
    else
      ([], some (SendError.unsupportedAttachmentKind attachment_type))

/-- Embedding of `Telegram.execute_send` (telegram.py lines 247-298).
If the pacing lock was never created (`on_start` has not run),
`async with self.api_messages_lock` raises before anything else happens.
Otherwise, under the lock: the text message (if truthy) is sent first
and paced, then each attachment is sent and paced in input order. -/
def execute_send (st : Telegram) (target_id : Int) (message : String)
    (attachments : AttachmentsArg) (kwargs : List (String × Option String)) :
    SendResult :=
  let chat_id := toString target_id
  if st.api_messages_lock = false then
    { trace := [], error := some SendError.lockNotInitialized }
  else
    let msgEvents :=
      if message = "" then []
      else
        [SendEvent.call "sendMessage" (pick_by (pyDictMerge
            [("chat_id", some chat_id), ("text", some message)] kwargs)),
          SendEvent.sleepPause st.api_messages_pause]
    let r := sendLoop chat_id st.api_messages_pause (normalizeAttachments attachments)
    { trace := SendEvent.acquireLock :: (msgEvents ++ r.1) ++ [SendEvent.releaseLock],
      error := r.2 }

/-- The outbound provider calls of a trace, in order. -/
def outboundCalls (trace : List SendEvent) :
    List (String × List (String × String)) :=
  trace.filterMap (fun e =>
    match e with
    | SendEvent.call m p => some (m, p)
    | _ => none)

/-- Timestamps at which the calls of a trace are issued, starting the
clock at `t`: calls are instantaneous, each `sleepPause` advances the
clock by its duration. -/
def callTimes : List SendEvent → ℚ → List ℚ
  | [], _ => []
  | SendEvent.call _ _ :: rest, t => t :: callTimes rest t
  | SendEvent.sleepPause d :: rest, t => callTimes rest (t + d)
  | SendEvent.acquireLock :: rest, t => callTimes rest t
  | SendEvent.releaseLock :: rest, t => callTimes rest t

/-- The text of a normalized update, when it is a message. -/
def NormalizedUpdate.textOf : NormalizedUpdate → Option String
  | NormalizedUpdate.upd _ _ => none
  | NormalizedUpdate.msg _ t _ _ _ _ _ _ => some t

/-- The metadata mapping of a normalized update. -/
def NormalizedUpdate.metaOf : NormalizedUpdate → List (String × Bool)
  | NormalizedUpdate.upd _ m => m
  | NormalizedUpdate.msg _ _ _ _ _ _ _ m => m

/-- The attachments of a normalized update, when it is a message. -/
def NormalizedUpdate.attachmentsOf : NormalizedUpdate → Option (List Attachment)
  | NormalizedUpdate.upd _ _ => none
  | NormalizedUpdate.msg _ _ atts _ _ _ _ _ => some atts

/-- A raw message holding one bot command entity at offset 0 of the given
length, for a chat of the given kind. -/
def commandMessage (chat_type text : String) (cmdLen : Nat) : RawMessage :=
  { chat_type := chat_type, chat_id := -100, from_id := 7, date := 1600000000,
    text := some text,
    entities := [{ type := "bot_command", offset := 0, length := cmdLen }] }

/-- A raw update wrapping `commandMessage`. -/
def commandUpdate (chat_type text : String) (cmdLen : Nat) : RawUpdate :=
  { update_id := 1, message := some (commandMessage chat_type text cmdLen) }

/-- A raw private-chat update whose message carries only a `photo` field. -/
def photoUpdate (uid cid fid date : Int) (sizes : List RawPhotoSize) : RawUpdate :=
  { update_id := uid,
    message := some
      { chat_type := "private", chat_id := cid, from_id := fid, date := date,
        photo := some sizes } }

/-- A backend state after `on_start` has run (username known, pacing lock
created), with the default 29 messages per second. -/
def readyState : Telegram :=
  { offset := 0, username := some "mybot", api_messages_pause := 1 / 29,
    api_messages_lock := true }

/-- A backend state as `__init__` leaves it: username and pacing lock
still unset. -/
def freshState : Telegram :=
  { offset := 0, username := none, api_messages_pause := 1 / 29,
    api_messages_lock := false }

/-- A new (not yet uploaded) attachment whose declared type resolves to
`location`, which is not in `SUPPORTED_ATTACHMENT_TYPES`. -/
def unsupportedNewAttachment : Attachment :=
  { id := none, type := "location", title := none, file_name := none,
    getter := none, uploaded := false, file := some "payload" }

/-- An already-uploaded photo attachment (declared with the `image`
alias, as normalization produces it). -/
def uploadedPhoto : Attachment :=
  { id := some "photo-file-id", type := "image", title := some "a photo",
    file_name := some "photo-file-id", getter := some "photo-file-id",
    uploaded := true, file := none }

/-- An already-uploaded document attachment (declared with the `doc`
alias, as normalization produces it). -/
def uploadedDoc : Attachment :=
  { id := some "doc-file-id", type := "doc", title := some "a doc",
    file_name := some "report.txt", getter := some "doc-file-id",
    uploaded := true, file := none }

/-- The outbound method name the attachment loop uses for an item
(meaningful only for `Attachment` items). -/
def itemMethod : SendItem → String
  | SendItem.att a => "send" ++ pyCapitalize (resolveAlias a.type)
  | SendItem.intItem _ => ""
  | SendItem.strItem _ => ""

/-- The transmitted parameters the attachment loop uses for an item:
by reference (`str(attachment.id)`) for an uploaded attachment, by
content (`attachment.file`) otherwise. -/
def itemParams (chat_id : String) : SendItem → List (String × String)
  | SendItem.att a =>
    pick_by [("chat_id", some chat_id),
      (resolveAlias a.type,
        if a.uploaded then some (pyStrOption a.id) else a.file),
      ("caption", a.title)]
  | SendItem.intItem _ => []
  | SendItem.strItem _ => []

/-- An item the attachment loop processes without raising: an
`Attachment` that is either already uploaded or of a supported
resolved type. -/
def itemOk : SendItem → Bool
  | SendItem.att a =>
    a.uploaded || SUPPORTED_ATTACHMENT_TYPES.contains (resolveAlias a.type)
  | SendItem.intItem _ => false
  | SendItem.strItem _ => false

/-- The event block the attachment loop emits for a list of items that
all process without raising: per item, one outbound call followed by one
pacing pause. -/
def pacedBlocks (chat_id : String) (p : ℚ) : List SendItem → List SendEvent
  | [] => []
  | i :: rest =>
    SendEvent.call (itemMethod i) (itemParams chat_id i) ::
      SendEvent.sleepPause p :: pacedBlocks chat_id p rest

/-- The arithmetic progression of call instants: `n` calls starting at
`t`, spaced exactly `p` apart. -/
def paceTimes (t p : ℚ) : Nat → List ℚ
  | 0 => []
  | n + 1 => t :: paceTimes (t + p) p n

/-- C1: polling a batch whose raw updates carry `update_id` 10, 11, 12
submits exactly three normalized events to the sink in input (ascending
id) order, leaves the cursor at 13, and advances the cursor per item:
right after the item with `update_id` k is delivered the cursor is k+1,
so an interruption never causes an already-delivered item to be polled
again. -/
theorem C1_poll_batch_delivery (st : Telegram) (u1 u2 u3 : RawUpdate)
    (h1 : u1.update_id = 10) (h2 : u2.update_id = 11) (h3 : u3.update_id = 12) :
    (acquire_updates st (PollOutcome.ok [u1, u2, u3])).events =
      [PollEvent.getUpdates 25 st.offset,
       PollEvent.submit (make_update st.username u1),
       PollEvent.submit (make_update st.username u2),
       PollEvent.submit (make_update st.username u3)] ∧
    (acquire_updates st (PollOutcome.ok [u1, u2, u3])).state.offset = 13 ∧
    (pollLoop st.username st.offset [u1, u2, u3]).2 =
      [(make_update st.username u1, 11),
       (make_update st.username u2, 12),
       (make_update st.username u3, 13)] := by
  refine ⟨?_, ?_, ?_⟩ <;> simp [acquire_updates, pollLoop, h1, h2, h3]

/-- Witness for C1 at a concrete batch. -/
theorem C1_poll_batch_delivery_witness :
    (acquire_updates readyState
        (PollOutcome.ok [{ update_id := 10 }, { update_id := 11 }, { update_id := 12 }])).events =
      [PollEvent.getUpdates 25 readyState.offset,
       PollEvent.submit (make_update readyState.username { update_id := 10 }),
       PollEvent.submit (make_update readyState.username { update_id := 11 }),
       PollEvent.submit (make_update readyState.username { update_id := 12 })] ∧
    (acquire_updates readyState
        (PollOutcome.ok [{ update_id := 10 }, { update_id := 11 }, { update_id := 12 }])).state.offset = 13 ∧
    (pollLoop readyState.username readyState.offset
        [{ update_id := 10 }, { update_id := 11 }, { update_id := 12 }]).2 =
      [(make_update readyState.username { update_id := 10 }, 11),
       (make_update readyState.username { update_id := 11 }, 12),
       (make_update readyState.username { update_id := 12 }, 13)] :=
  C1_poll_batch_delivery readyState _ _ _ rfl rfl rfl

/-- C2 counterexample: a *private*-chat update with text
`"/start@mybot hello"` and a bot-command entity covering
`"/start@mybot"`, normalized while the backend's username is `mybot`,
keeps its text unscrubbed and its metadata empty — the private branch of
`_make_update` never calls `_extract_text`, contradicting the claim that
the text becomes `"/start hello"` with the mention flag set. -/
theorem C2_private_no_scrubbing_counterexample :
    (make_update (some "mybot") (commandUpdate "private" "/start@mybot hello" 12)).textOf
      = some "/start@mybot hello" ∧
    (make_update (some "mybot") (commandUpdate "private" "/start@mybot hello" 12)).metaOf
      = [] ∧
    ("/start@mybot hello" : String) ≠ "/start hello" := by
  refine ⟨rfl, rfl, by decide⟩

/-- C2 (amended to group chats): a *group*-chat update with text
`"/start@mybot hello"` and a bot-command entity covering
`"/start@mybot"` normalizes, when the backend's username is `mybot`, to
text `"/start hello"` with the mention flag set; when the username is
`otherbot` the text is unchanged and the metadata stays empty. -/
theorem C2_group_mention_scrubbing :
    (make_update (some "mybot") (commandUpdate "group" "/start@mybot hello" 12)).textOf
      = some "/start hello" ∧
    (make_update (some "mybot") (commandUpdate "group" "/start@mybot hello" 12)).metaOf
      = [("bot_mentioned", true)] ∧
    (make_update (some "otherbot") (commandUpdate "group" "/start@mybot hello" 12)).textOf
      = some "/start@mybot hello" ∧
    (make_update (some "otherbot") (commandUpdate "group" "/start@mybot hello" 12)).metaOf
      = [] := by
  refine ⟨by decide, by decide, by decide, by decide⟩

/-- C6: evaluation of the embedded code at the failing input.  Before
`on_start` the username field is unset (`None`), yet mention
normalization is not a no-op: the f-string `f"@{self.username}"` renders
as the literal `"@None"`, so a group-chat command ending in `"@None"` is
scrubbed and the mention flag is set. -/
theorem C6_username_unset_not_inert :
    (make_update none (commandUpdate "group" "/start@None hello" 11)).textOf
      = some "/start hello" ∧
    (make_update none (commandUpdate "group" "/start@None hello" 11)).metaOf
      = [("bot_mentioned", true)] ∧
    ("/start hello" : String) ≠ "/start@None hello" := by
  refine ⟨by decide, by decide, by decide⟩

/-- C8: error policy of one polling iteration.  A decode failure or a
transport failure ends the iteration silently (only the request event,
no submission, no log, no pause) with the cursor unchanged; a
cancellation propagates (and is not swallowed: no log, no pause) with
the cursor unchanged; any other failure is logged, followed by a
one-second cooldown pause, and returns with the cursor unchanged. -/
theorem C8_poll_error_policy (st : Telegram) :
    acquire_updates st PollOutcome.jsonDecodeError =
      { state := st, events := [PollEvent.getUpdates 25 st.offset], cancelled := false } ∧
    acquire_updates st PollOutcome.clientError =
      { state := st, events := [PollEvent.getUpdates 25 st.offset], cancelled := false } ∧
    acquire_updates st PollOutcome.cancelledError =
      { state := st, events := [PollEvent.getUpdates 25 st.offset], cancelled := true } ∧
    acquire_updates st PollOutcome.otherError =
      { state := st,
        events := [PollEvent.getUpdates 25 st.offset, PollEvent.logException,
          PollEvent.sleepSeconds 1],
        cancelled := false } :=
  ⟨rfl, rfl, rfl, rfl⟩

/-- C9: every alias of the attachment-type alias table routes to the
same outbound method name as its canonical form; in particular `doc` and
`document` both route to `sendDocument`, and `image` and `photo` both
route to `sendPhoto`. -/
theorem C9_alias_routing :
    (ATTACHMENT_TYPE_ALIASES.all
        (fun p => sendMethodFor p.1 == sendMethodFor p.2)) = true ∧
    sendMethodFor "doc" = "sendDocument" ∧
    sendMethodFor "document" = "sendDocument" ∧
    sendMethodFor "image" = "sendPhoto" ∧
    sendMethodFor "photo" = "sendPhoto" := by
  refine ⟨by decide, by decide, by decide, by decide, by decide⟩

/-- C5 counterexample: a bare id (the integer 5) passed as the
`attachments` argument of `execute_send` is wrapped into a one-element
sequence but then rejected by the loop's `isinstance` check with a
`ValueError` — a bare id is not accepted. -/
theorem C5_bare_id_rejected_counterexample :
    (execute_send readyState 42 "" (AttachmentsArg.intScalar 5) []).error
      = some SendError.unexpectedAttachment ∧
    outboundCalls (execute_send readyState 42 "" (AttachmentsArg.intScalar 5) []).trace
      = [] := by
  refine ⟨by decide, by decide⟩

/-- C5 (amended): a scalar `attachments` argument (bare id, path string,
or single `Attachment`) is normalized into a one-element sequence before
iteration, and `execute_send` then behaves exactly as on the
corresponding one-element list; a single `Attachment` scalar is thereby
accepted, while a wrapped bare id or path is rejected by the loop like
any other non-`Attachment` element. -/
theorem C5_scalar_normalization (st : Telegram) (target : Int) (message : String)
    (a : Attachment) (i : Int) (s : String)
    (kwargs : List (String × Option String)) :
    normalizeAttachments (AttachmentsArg.intScalar i) = [SendItem.intItem i] ∧
    normalizeAttachments (AttachmentsArg.strScalar s) = [SendItem.strItem s] ∧
    normalizeAttachments (AttachmentsArg.attScalar a) = [SendItem.att a] ∧
    execute_send st target message (AttachmentsArg.attScalar a) kwargs =
      execute_send st target message (AttachmentsArg.seq [SendItem.att a]) kwargs ∧
    execute_send st target message (AttachmentsArg.intScalar i) kwargs =
      execute_send st target message (AttachmentsArg.seq [SendItem.intItem i]) kwargs ∧
    execute_send st target message (AttachmentsArg.strScalar s) kwargs =
      execute_send st target message (AttachmentsArg.seq [SendItem.strItem s]) kwargs :=
  ⟨rfl, rfl, rfl, rfl, rfl, rfl⟩

/-- C3 counterexample: an `execute_send` invocation with non-empty text
and a new attachment of unsupported resolved type does fail with the
unsupported-kind error, but only after the text's `sendMessage` call has
already gone out — the invocation does not produce zero outbound calls. -/
theorem C3_text_call_precedes_failure_counterexample :
    (execute_send readyState 42 "hi"
        (AttachmentsArg.seq [SendItem.att unsupportedNewAttachment]) []).error
      = some (SendError.unsupportedAttachmentKind "location") ∧
    outboundCalls (execute_send readyState 42 "hi"
        (AttachmentsArg.seq [SendItem.att unsupportedNewAttachment]) []).trace
      = [("sendMessage", [("chat_id", "42"), ("text", "hi")])] ∧
    ([("sendMessage", [("chat_id", "42"), ("text", "hi")])] :
        List (String × List (String × String))) ≠ [] := by
  refine ⟨by decide, by decide, by decide⟩

/-- C3 (amended): when `execute_send` is invoked with empty text and its
attachment list begins with a new (not yet uploaded) attachment whose
resolved type is not in the supported-for-upload set, the call fails
with the unsupported-kind error and produces zero outbound provider
calls; the failure always precedes any call for the offending
attachment itself. -/
theorem C3_upload_unsupported_no_calls (st : Telegram) (target : Int)
    (a : Attachment) (rest : List SendItem)
    (kwargs : List (String × Option String))
    (hlock : st.api_messages_lock = true)
    (hnew : a.uploaded = false)
    (hunsup : SUPPORTED_ATTACHMENT_TYPES.contains (resolveAlias a.type) = false) :
    (execute_send st target ""
        (AttachmentsArg.seq (SendItem.att a :: rest)) kwargs).error
      = some (SendError.unsupportedAttachmentKind (resolveAlias a.type)) ∧
    outboundCalls (execute_send st target ""
        (AttachmentsArg.seq (SendItem.att a :: rest)) kwargs).trace
      = [] := by
  have hmem : resolveAlias a.type ∉ SUPPORTED_ATTACHMENT_TYPES := by
    simpa using hunsup
  refine ⟨?_, ?_⟩ <;>
    simp [execute_send, hlock, normalizeAttachments, sendLoop, hnew, hmem,
      outboundCalls]

/-- Witness for C3 (amended) at a concrete unsupported attachment. -/
theorem C3_upload_unsupported_no_calls_witness :
    (execute_send readyState 42 ""
        (AttachmentsArg.seq [SendItem.att unsupportedNewAttachment]) []).error
      = some (SendError.unsupportedAttachmentKind
          (resolveAlias unsupportedNewAttachment.type)) ∧
    outboundCalls (execute_send readyState 42 ""
        (AttachmentsArg.seq [SendItem.att unsupportedNewAttachment]) []).trace
      = [] :=
  C3_upload_unsupported_no_calls readyState 42 unsupportedNewAttachment [] []
    rfl rfl (by decide)

/-- C10: calling `execute_send` before `on_start` has run fails
immediately — the pacing-lock field still holds its initial `None`, so
entering `async with` raises before any outbound call — and the adapter
states produced by `__init__` and by `on_start` have the lock unset and
set respectively. -/
theorem C10_send_before_start_fails (st : Telegram) (target : Int)
    (message : String) (attachments : AttachmentsArg)
    (kwargs : List (String × Option String))
    (hlock : st.api_messages_lock = false) :
    (execute_send st target message attachments kwargs).error
      = some SendError.lockNotInitialized ∧
    (execute_send st target message attachments kwargs).trace = [] ∧
    outboundCalls (execute_send st target message attachments kwargs).trace = [] ∧
    (∀ token mps tg, Telegram.init token mps = Except.ok tg →
      tg.api_messages_lock = false) ∧
    (∀ me, (Telegram.on_start st me).api_messages_lock = true) := by
  refine ⟨?_, ?_, ?_, ?_, ?_⟩
  · simp [execute_send, hlock]
  · simp [execute_send, hlock]
  · simp [execute_send, hlock, outboundCalls]
  · intro token mps tg h
    unfold Telegram.init at h
    by_cases ht : token = ""
    · simp [ht] at h
    · simp [ht] at h
      rw [← h]
  · intro me
    rfl

/-- Witness for C10 at a freshly constructed adapter. -/
theorem C10_send_before_start_fails_witness :
    (execute_send freshState 42 "hi"
        (AttachmentsArg.seq [SendItem.att uploadedPhoto]) []).error
      = some SendError.lockNotInitialized ∧
    (execute_send freshState 42 "hi"
        (AttachmentsArg.seq [SendItem.att uploadedPhoto]) []).trace = [] ∧
    outboundCalls (execute_send freshState 42 "hi"
        (AttachmentsArg.seq [SendItem.att uploadedPhoto]) []).trace = [] ∧
    (∀ token mps tg, Telegram.init token mps = Except.ok tg →
      tg.api_messages_lock = false) ∧
    (∀ me, (Telegram.on_start freshState me).api_messages_lock = true) :=
  C10_send_before_start_fails freshState 42 "hi"
    (AttachmentsArg.seq [SendItem.att uploadedPhoto]) [] rfl

theorem mem_insertByWidth {q p : RawPhotoSize} {l : List RawPhotoSize} :
    q ∈ insertByWidth p l ↔ q = p ∨ q ∈ l := by
  induction l with
  | nil => simp [insertByWidth]
  | cons x xs ih =>
    by_cases h : p.width < x.width
    · simp [insertByWidth, h]
    · simp [insertByWidth, h, ih]
      tauto

theorem mem_sortByWidth {q : RawPhotoSize} {l : List RawPhotoSize} :
    q ∈ sortByWidth l ↔ q ∈ l := by
  induction l with
  | nil => simp [sortByWidth]
  | cons x xs ih => simp [sortByWidth, mem_insertByWidth, ih]

theorem insertByWidth_of_forall_le {p : RawPhotoSize} {l : List RawPhotoSize}
    (h : ∀ q ∈ l, ¬ p.width < q.width) : insertByWidth p l = l ++ [p] := by
  induction l with
  | nil => simp [insertByWidth]
  | cons x xs ih =>
    have hx : ¬ p.width < x.width := h x (List.mem_cons_self x xs)
    simp [insertByWidth, hx]
    exact ih (fun q hq => h q (List.mem_cons_of_mem x hq))

theorem getLastD_insertByWidth_of_exists {p : RawPhotoSize}
    {l : List RawPhotoSize} (d : RawPhotoSize)
    (h : ∃ q ∈ l, p.width < q.width) :
    (insertByWidth p l).getLastD d = l.getLastD d := by
  induction l generalizing d with
  | nil => simp at h
  | cons x xs ih =>
    by_cases hx : p.width < x.width
    · rw [insertByWidth, if_pos hx, List.getLastD_cons, List.getLastD_cons,
        List.getLastD_cons]
    · obtain ⟨q, hq, hpq⟩ := h
      rcases List.mem_cons.mp hq with rfl | hq
      · exact absurd hpq hx
      · rw [insertByWidth, if_neg hx, List.getLastD_cons, List.getLastD_cons]
        exact ih x ⟨q, hq, hpq⟩

/-- The photo variant picked by `_make_attachment` is the unique
maximum-width variant: Python's `sorted(d, key=lambda p: p["width"])[-1]`
is the variant strictly wider than every other one, when such a variant
exists. -/
theorem sortByWidth_getLastD_unique_max (l : List RawPhotoSize) :
    ∀ s d : RawPhotoSize, s ∈ l →
    (∀ t ∈ l, t ≠ s → t.width < s.width) →
    (sortByWidth l).getLastD d = s := by
  induction l with
  | nil => intro s d hs _; simp at hs
  | cons x xs ih =>
    intro s d hs hmax
    by_cases hxs : x = s
    · subst hxs
      have hall : ∀ q ∈ sortByWidth xs, ¬ x.width < q.width := by
        intro q hq
        have hq' : q ∈ xs := mem_sortByWidth.mp hq
        by_cases hq2 : q = x
        · subst hq2; exact lt_irrefl _
        · exact not_lt_of_gt (hmax q (List.mem_cons_of_mem x hq') hq2)
      rw [sortByWidth, insertByWidth_of_forall_le hall]
      simp
    · have hsx : s ∈ xs := by
        rcases List.mem_cons.mp hs with h | h
        · exact absurd h.symm hxs
        · exact h
      have hxw : x.width < s.width := hmax x (List.mem_cons_self x xs) hxs
      rw [sortByWidth, getLastD_insertByWidth_of_exists d
        ⟨s, mem_sortByWidth.mpr hsx, hxw⟩]
      exact ih s d hsx (fun t ht hts => hmax t (List.mem_cons_of_mem x ht) hts)

/-- C7: a raw photo update carrying several size variants normalizes to
exactly one canonical attachment, keyed to the `file_id` of the variant
with the maximum width (assumed to be attained by a single variant, as
with widths 90, 320, 800). -/
theorem C7_photo_picks_max_width (username : Option String)
    (uid cid fid date : Int) (sizes : List RawPhotoSize) (s : RawPhotoSize)
    (hs : s ∈ sizes) (hmax : ∀ t ∈ sizes, t ≠ s → t.width < s.width) :
    (make_update username (photoUpdate uid cid fid date sizes)).attachmentsOf
      = some [make_attachment_photo sizes] ∧
    (make_attachment_photo sizes).id = some s.file_id ∧
    (make_attachment_photo sizes).type = "image" := by
  refine ⟨rfl, ?_, rfl⟩
  show some ((sortByWidth sizes).getLastD { width := 0, file_id := "" }).file_id
    = some s.file_id
  rw [sortByWidth_getLastD_unique_max sizes s _ hs hmax]

/-- Witness for C7 at variants of widths 90, 320, 800. -/
theorem C7_photo_picks_max_width_witness :
    (make_update (some "mybot") (photoUpdate 1 5 7 1600000000
        [{ width := 90, file_id := "small" }, { width := 320, file_id := "mid" },
         { width := 800, file_id := "big" }])).attachmentsOf
      = some [make_attachment_photo
        [{ width := 90, file_id := "small" }, { width := 320, file_id := "mid" },
         { width := 800, file_id := "big" }]] ∧
    (make_attachment_photo
        [{ width := 90, file_id := "small" }, { width := 320, file_id := "mid" },
         { width := 800, file_id := "big" }]).id
      = some (RawPhotoSize.file_id { width := 800, file_id := "big" }) ∧
    (make_attachment_photo
        [{ width := 90, file_id := "small" }, { width := 320, file_id := "mid" },
         { width := 800, file_id := "big" }]).type = "image" :=
  C7_photo_picks_max_width (some "mybot") 1 5 7 1600000000 _
    { width := 800, file_id := "big" } (by decide) (by decide)

theorem sendLoop_ok (chat_id : String) (p : ℚ) (items : List SendItem)
    (h : ∀ i ∈ items, itemOk i = true) :
    sendLoop chat_id p items = (pacedBlocks chat_id p items, none) := by
  induction items with
  | nil => rfl
  | cons i rest ih =>
    have hi : itemOk i = true := h i (List.mem_cons_self i rest)
    have hrest : ∀ j ∈ rest, itemOk j = true :=
      fun j hj => h j (List.mem_cons_of_mem i hj)
    cases i with
    | intItem n => simp [itemOk] at hi
    | strItem s => simp [itemOk] at hi
    | att a =>
      by_cases hu : a.uploaded = true
      · simp [sendLoop, hu, ih hrest, pacedBlocks, itemMethod, itemParams]
      · have hu' : a.uploaded = false := by simpa using hu
        have hsup : resolveAlias a.type ∈ SUPPORTED_ATTACHMENT_TYPES := by
          have := hi
          simp [itemOk, hu'] at this
          simpa using this
        simp [sendLoop, hu', hsup, ih hrest, pacedBlocks, itemMethod, itemParams]

theorem outboundCalls_nil : outboundCalls [] = [] := rfl

theorem outboundCalls_cons_call (m : String) (pr : List (String × String))
    (rest : List SendEvent) :
    outboundCalls (SendEvent.call m pr :: rest) = (m, pr) :: outboundCalls rest := rfl

theorem outboundCalls_cons_acquire (rest : List SendEvent) :
    outboundCalls (SendEvent.acquireLock :: rest) = outboundCalls rest := rfl

theorem outboundCalls_cons_sleep (d : ℚ) (rest : List SendEvent) :
    outboundCalls (SendEvent.sleepPause d :: rest) = outboundCalls rest := rfl

theorem outboundCalls_cons_release (rest : List SendEvent) :
    outboundCalls (SendEvent.releaseLock :: rest) = outboundCalls rest := rfl

theorem outboundCalls_pacedBlocks_append (chat_id : String) (p : ℚ)
    (items : List SendItem) (ys : List SendEvent) :
    outboundCalls (pacedBlocks chat_id p items ++ ys)
      = items.map (fun i => (itemMethod i, itemParams chat_id i))
        ++ outboundCalls ys := by
  induction items with
  | nil => simp [pacedBlocks]
  | cons i rest ih =>
    simp only [pacedBlocks, List.cons_append, outboundCalls_cons_call,
      outboundCalls_cons_sleep, ih, List.map_cons]

theorem callTimes_pacedBlocks_release (chat_id : String) (p : ℚ)
    (items : List SendItem) (t : ℚ) :
    callTimes (pacedBlocks chat_id p items ++ [SendEvent.releaseLock]) t
      = paceTimes t p items.length := by
  induction items generalizing t with
  | nil => simp [pacedBlocks, callTimes, paceTimes]
  | cons i rest ih =>
    simp only [pacedBlocks, List.cons_append, callTimes, paceTimes,
      List.length_cons]
    exact congrArg _ (ih (t + p))

theorem paceTimes_chain (p : ℚ) (n : Nat) (t : ℚ) :
    List.Chain' (fun a b => a + p ≤ b) (paceTimes t p n) := by
  induction n generalizing t with
  | zero => simp [paceTimes]
  | succ m ih =>
    cases m with
    | zero => simp [paceTimes]
    | succ k =>
      rw [paceTimes, paceTimes, List.chain'_cons]
      exact ⟨le_rfl, by rw [← paceTimes]; exact ih (t + p)⟩

theorem mem_pacedBlocks {e : SendEvent} (chat_id : String) (p : ℚ)
    (items : List SendItem) (he : e ∈ pacedBlocks chat_id p items) :
    (∃ i, e = SendEvent.call (itemMethod i) (itemParams chat_id i)) ∨
      e = SendEvent.sleepPause p := by
  induction items with
  | nil => simp [pacedBlocks] at he
  | cons i rest ih =>
    rcases List.mem_cons.mp he with h | h
    · exact Or.inl ⟨i, h⟩
    · rcases List.mem_cons.mp h with h2 | h2
      · exact Or.inr h2
      · exact ih h2

/-- C4: an `execute_send` invocation with non-empty text and a list of
attachments each of which the loop accepts issues its outbound calls in
exactly this order — one `sendMessage` call for the text first, then one
call per attachment in input order (so text plus two attachments makes
exactly three calls) — with consecutive calls spaced at least the pacing
interval apart, and the whole sequence bracketed by the single pacing
lock's acquisition and release. -/
theorem C4_text_then_attachments_paced (st : Telegram) (target : Int)
    (message : String) (items : List SendItem)
    (kwargs : List (String × Option String))
    (hlock : st.api_messages_lock = true) (hmsg : ¬ message = "")
    (hok : ∀ i ∈ items, itemOk i = true) :
    (execute_send st target message (AttachmentsArg.seq items) kwargs).error
      = none ∧
    outboundCalls (execute_send st target message
        (AttachmentsArg.seq items) kwargs).trace
      = ("sendMessage", pick_by (pyDictMerge
          [("chat_id", some (toString target)), ("text", some message)] kwargs))
        :: items.map (fun i => (itemMethod i, itemParams (toString target) i)) ∧
    (outboundCalls (execute_send st target message
        (AttachmentsArg.seq items) kwargs).trace).length
      = items.length + 1 ∧
    callTimes (execute_send st target message
        (AttachmentsArg.seq items) kwargs).trace 0
      = paceTimes 0 st.api_messages_pause (items.length + 1) ∧
    List.Chain' (fun a b => a + st.api_messages_pause ≤ b)
      (callTimes (execute_send st target message
        (AttachmentsArg.seq items) kwargs).trace 0) ∧
    (∃ body, (execute_send st target message
        (AttachmentsArg.seq items) kwargs).trace
      = SendEvent.acquireLock :: body ++ [SendEvent.releaseLock] ∧
      ∀ e ∈ body, e ≠ SendEvent.acquireLock ∧ e ≠ SendEvent.releaseLock) := by
  have hloop := sendLoop_ok (toString target) st.api_messages_pause items hok
  have htrace : (execute_send st target message
      (AttachmentsArg.seq items) kwargs).trace
      = SendEvent.acquireLock
        :: SendEvent.call "sendMessage" (pick_by (pyDictMerge
            [("chat_id", some (toString target)), ("text", some message)] kwargs))
        :: SendEvent.sleepPause st.api_messages_pause
        :: (pacedBlocks (toString target) st.api_messages_pause items
            ++ [SendEvent.releaseLock]) := by
    simp [execute_send, hlock, hmsg, normalizeAttachments, hloop]
  have herr : (execute_send st target message
      (AttachmentsArg.seq items) kwargs).error = none := by
    simp [execute_send, hlock, hmsg, normalizeAttachments, hloop]
  have hcalls : outboundCalls (execute_send st target message
      (AttachmentsArg.seq items) kwargs).trace
      = ("sendMessage", pick_by (pyDictMerge
          [("chat_id", some (toString target)), ("text", some message)] kwargs))
        :: items.map (fun i => (itemMethod i, itemParams (toString target) i)) := by
    rw [htrace, outboundCalls_cons_acquire, outboundCalls_cons_call,
      outboundCalls_cons_sleep, outboundCalls_pacedBlocks_append]
    simp [outboundCalls]
  have htimes : callTimes (execute_send st target message
      (AttachmentsArg.seq items) kwargs).trace 0
      = paceTimes 0 st.api_messages_pause (items.length + 1) := by
    rw [htrace]
    simp only [callTimes, callTimes_pacedBlocks_release, paceTimes, zero_add]
  refine ⟨herr, hcalls, ?_, htimes, ?_, ?_⟩
  · rw [hcalls]
    simp
  · rw [htimes]
    exact paceTimes_chain _ _ _
  · refine ⟨SendEvent.call "sendMessage" (pick_by (pyDictMerge
        [("chat_id", some (toString target)), ("text", some message)] kwargs))
        :: SendEvent.sleepPause st.api_messages_pause
        :: pacedBlocks (toString target) st.api_messages_pause items, ?_, ?_⟩
    · rw [htrace]
      simp
    · intro e he
      rcases List.mem_cons.mp he with rfl | he2
      · exact ⟨by simp, by simp⟩
      rcases List.mem_cons.mp he2 with rfl | he3
      · exact ⟨by simp, by simp⟩
      rcases mem_pacedBlocks _ _ _ he3 with ⟨i, rfl⟩ | rfl
      · exact ⟨by simp, by simp⟩
      · exact ⟨by simp, by simp⟩

/-- Witness for C4 at non-empty text plus two uploaded attachments. -/
theorem C4_text_then_attachments_paced_witness :
    (execute_send readyState 42 "hi"
        (AttachmentsArg.seq [SendItem.att uploadedPhoto, SendItem.att uploadedDoc])
        []).error = none ∧
    outboundCalls (execute_send readyState 42 "hi"
        (AttachmentsArg.seq [SendItem.att uploadedPhoto, SendItem.att uploadedDoc])
        []).trace
      = ("sendMessage", pick_by (pyDictMerge
          [("chat_id", some (toString (42 : Int))), ("text", some "hi")] []))
        :: [SendItem.att uploadedPhoto, SendItem.att uploadedDoc].map
            (fun i => (itemMethod i, itemParams (toString (42 : Int)) i)) ∧
    (outboundCalls (execute_send readyState 42 "hi"
        (AttachmentsArg.seq [SendItem.att uploadedPhoto, SendItem.att uploadedDoc])
        []).trace).length
      = [SendItem.att uploadedPhoto, SendItem.att uploadedDoc].length + 1 ∧
    callTimes (execute_send readyState 42 "hi"
        (AttachmentsArg.seq [SendItem.att uploadedPhoto, SendItem.att uploadedDoc])
        []).trace 0
      = paceTimes 0 readyState.api_messages_pause
          ([SendItem.att uploadedPhoto, SendItem.att uploadedDoc].length + 1) ∧
    List.Chain' (fun a b => a + readyState.api_messages_pause ≤ b)
      (callTimes (execute_send readyState 42 "hi"
        (AttachmentsArg.seq [SendItem.att uploadedPhoto, SendItem.att uploadedDoc])
        []).trace 0) ∧
    (∃ body, (execute_send readyState 42 "hi"
        (AttachmentsArg.seq [SendItem.att uploadedPhoto, SendItem.att uploadedDoc])
        []).trace
      = SendEvent.acquireLock :: body ++ [SendEvent.releaseLock] ∧
      ∀ e ∈ body, e ≠ SendEvent.acquireLock ∧ e ≠ SendEvent.releaseLock) :=
  C4_text_then_attachments_paced readyState 42 "hi"
    [SendItem.att uploadedPhoto, SendItem.att uploadedDoc] []
    rfl (by decide) (by decide)

end Kutana
